import Mathlib

/-!
Verification of the `ScriptExecutor` component
(`src/lpm_kernel/api/common/script_executor.py`).

The Python class is embedded shallowly:

* `ScriptExecutor.init` embeds `__init__`.  Its inputs are the three
  pieces of ambient state the constructor reads: the value of the
  `IN_DOCKER_ENV` environment variable (`Option String`, `none` when
  unset), whether the marker path `/.dockerenv` exists (`Bool`), and the
  value of `CONDA_DEFAULT_ENV` (`Option String`).  The Python
  `raise ValueError(...)` becomes `Except.error`.

* `ScriptExecutor.execute` embeds `execute`.  The ambient world is made
  explicit: the child process behaviour is a function from the spawned
  command to a `ChildOutcome` (a fault raised by `Popen`, a normal run
  producing a list of raw output lines and an exit code, or a fault
  raised mid-drain after some lines were produced).  The method returns
  the (unchanged) executor, an `ExecTrace` recording its observable side
  effects (the command logged and spawned, directories created, console
  prints, raw log-file appends — one `open`/`write`/`close` per entry),
  and the `ExecResult` dictionary it builds.

* Python string methods are embedded over character lists:
  `pyEndswith` for `str.endswith`, `pyStrip` for `str.strip()` (leading
  and trailing whitespace), `pyRstrip` for `str.rstrip()` (trailing
  only, used to state what the spec claims about console trimming).

* `os.path.dirname` is embedded for POSIX paths as `posixDirname`;
  `os.makedirs(path, exist_ok=True)` on a writable filesystem is
  embedded as `makedirs`, which raises exactly on the empty path
  (Python raises `FileNotFoundError` there); other filesystem failures
  are environment-dependent and are modelled by the fault cases of
  `ChildOutcome` only insofar as the claims need them.

* The source guards the log file with Python truthiness
  (`if log_file:` before `os.makedirs` and before each write), which is
  false for the empty string as well as for `None`.  The embedding
  represents an absent or empty log-file path as `none`; `some lf`
  stands for a configured log file and is meaningful only for non-empty
  `lf`, so every theorem quantifying over a `some` path carries a
  hypothesis that keeps the path (or its dirname) non-empty.
-/

namespace ScriptExec

/-- Embedding of Python `s.endswith(suffix)`: the suffix test on the
underlying character sequences. -/
def pyEndswith (s suffix : String) : Bool :=
  suffix.toList.isSuffixOf s.toList

/-- Embedding of Python `s.strip()` with no argument: remove leading
and trailing whitespace. -/
def pyStrip (s : String) : String :=
  String.mk (((s.toList.dropWhile Char.isWhitespace).reverse.dropWhile
    Char.isWhitespace).reverse)

/-- Python `s.rstrip()`: remove trailing whitespace only.  Not used by
the source (which calls `strip()`); it states what the specification
claims about console trimming. -/
def pyRstrip (s : String) : String :=
  String.mk ((s.toList.reverse.dropWhile Char.isWhitespace).reverse)

/-- The head part of a POSIX path: every character up to and including
the last `/` (empty when the path has no `/`). -/
def headPart (cs : List Char) : List Char :=
  (cs.reverse.dropWhile (fun c => c ≠ '/')).reverse

/-- Embedding of POSIX `os.path.dirname`: take the head part, and strip
its trailing slashes unless it is empty or consists only of slashes. -/
def posixDirname (p : String) : String :=
  let head := headPart p.toList
  if head ≠ [] ∧ ¬ head.all (fun c => c = '/') then
    String.mk (head.reverse.dropWhile (fun c => c = '/')).reverse
  else
    String.mk head

/-- Embedding of `os.makedirs(path, exist_ok=True)` on a writable
filesystem: Python raises `FileNotFoundError` exactly when the path is
empty (as happens for `os.path.dirname` of a bare filename), and
otherwise creates the missing directories and returns. -/
def makedirs (path : String) : Except String Unit :=
  if path = "" then
    Except.error "[Errno 2] No such file or directory: \x27\x27"
  else
    Except.ok ()

/-- Executor state: the two fields set by `__init__` and only ever read
by `execute` (`self.in_docker`, `self.conda_env`). -/
structure ScriptExecutor where
  in_docker : Bool
  conda_env : String
deriving Repr, DecidableEq

/-- Embedding of `ScriptExecutor.__init__`.  `in_docker` is true when
`IN_DOCKER_ENV` equals `"1"` or `/.dockerenv` exists; outside Docker a
missing or empty (Python-falsy) `CONDA_DEFAULT_ENV` raises
`ValueError`, otherwise it becomes `conda_env`; inside Docker
`conda_env` is the placeholder `"docker-env"`. -/
def ScriptExecutor.init (in_docker_env : Option String) (dockerenv_exists : Bool)
    (conda_default_env : Option String) : Except String ScriptExecutor :=
  let in_docker := in_docker_env == some "1" || dockerenv_exists
  if in_docker then
    Except.ok { in_docker := in_docker, conda_env := "docker-env" }
  else
    match conda_default_env with
    | none =>
        Except.error "CONDA_DEFAULT_ENV environment variable is not set and not running in Docker"
    | some e =>
        if e = "" then
          Except.error "CONDA_DEFAULT_ENV environment variable is not set and not running in Docker"
        else
          Except.ok { in_docker := in_docker, conda_env := e }

/-- Embedding of the command-construction block of `execute` (the
`cmd = ...` branches followed by `if args: cmd.extend(args)`; extending
by the empty list is a no-op, so the Python truthiness test on `args`
needs no separate case, and `extend` mutates only the freshly built
local list, embedded as list append). -/
def ScriptExecutor.buildCmd (self : ScriptExecutor) (script_path : String)
    (args : Option (List String)) : List String :=
  let cmd :=
    if self.in_docker then
      if pyEndswith script_path ".py" then
        ["python", script_path]
      else
        [script_path]
    else
      if pyEndswith script_path ".py" then
        ["conda", "run", "-n", self.conda_env, "python", "-u", script_path]
      else if pyEndswith script_path ".sh" then
        ["conda", "run", "-n", self.conda_env, "bash", "-x", script_path]
      else
        ["conda", "run", "-n", self.conda_env, script_path]
  cmd ++ args.getD []

/-- Behaviour of the spawned child process, as observed by `execute`
through `Popen`/`readline`/`poll`/`wait`: either `Popen` itself raises,
or the run completes producing the given raw output lines (each line as
returned by `readline`, terminator included) and an exit code, or a
fault is raised mid-drain after the given lines were already
processed. -/
inductive ChildOutcome where
  | spawnFault (desc : String)
  | run (lines : List String) (code : Int)
  | drainFault (lines : List String) (desc : String)
deriving Repr, DecidableEq

/-- The observable side effects of one `execute` call: the command it
assembled (logged and handed to `Popen`), the directories created by
`os.makedirs`, whether `Popen` was reached, the lines printed to the
caller's standard output, and the raw strings appended to the log file
(each entry is one `open`/`write`/`close`; the log file comes into
existence exactly when this list is non-empty). -/
structure ExecTrace where
  cmd : List String
  dirsCreated : List String
  spawnAttempted : Bool
  console : List String
  logWrites : List String
deriving Repr, DecidableEq

/-- The dictionary returned by `execute`:
`{"returncode": ..., "error": ...}`. -/
structure ExecResult where
  returncode : Int
  error : Option String
deriving Repr, DecidableEq

/-- The message built by the `except` handler of `execute`. -/
def errMsg (script_type desc : String) : String :=
  "Error occurred while executing " ++ script_type ++ " script: " ++ desc

/-- The message attached to a nonzero exit code. -/
def failMsg (code : Int) : String :=
  "Execution failed, return code: " ++ toString code

/-- Embedding of the real-time drain loop of `execute`: for each line
read (skipping the empty string, per `if output:`), print
`output.strip()` to the console and, when a log file is configured,
append the raw line to it.  Returns the console lines and the raw log
appends, in production order. -/
def drain : List String → Option String → List String × List String
  | [], _ => ([], [])
  | l :: ls, lf =>
      let rest := drain ls lf
      if l = "" then
        rest
      else
        (pyStrip l :: rest.1,
         match lf with
         | some _ => l :: rest.2
         | none => rest.2)

/-- The part of `execute` from the `Popen` call on (spawn, drain loop,
`wait`, and result construction), still inside the `try` block: a
spawn fault or a mid-drain fault falls to the `except` handler, a
completed run yields the exit code with `"Execution failed, return
code: ..."` attached exactly when it is nonzero. -/
def ScriptExecutor.runChild (self : ScriptExecutor) (cmd : List String)
    (script_type : String) (log_file : Option String) (dirs : List String)
    (child : List String → ChildOutcome) : ScriptExecutor × ExecTrace × ExecResult :=
  match child cmd with
  | ChildOutcome.spawnFault d =>
      (self,
       { cmd := cmd, dirsCreated := dirs, spawnAttempted := true,
         console := [], logWrites := [] },
       { returncode := -1, error := some (errMsg script_type d) })
  | ChildOutcome.run lines code =>
      let out := drain lines log_file
      (self,
       { cmd := cmd, dirsCreated := dirs, spawnAttempted := true,
         console := out.1, logWrites := out.2 },
       { returncode := code,
         error := if code = 0 then none else some (failMsg code) })
  | ChildOutcome.drainFault lines d =>
      let out := drain lines log_file
      (self,
       { cmd := cmd, dirsCreated := dirs, spawnAttempted := true,
         console := out.1, logWrites := out.2 },
       { returncode := -1, error := some (errMsg script_type d) })

/-- Embedding of `ScriptExecutor.execute`.  The whole body sits in a
`try`/`except` that converts any raised fault into
`{"returncode": -1, "error": errMsg ...}`.  The command is built and
logged first; when a log file is configured, `os.makedirs` runs on its
`dirname` before `Popen` (and its fault is caught before any spawn);
then the child is spawned and drained (`runChild`).  The executor is
returned unchanged: the method assigns to no field of `self`. -/
def ScriptExecutor.execute (self : ScriptExecutor) (script_path script_type : String)
    (args : Option (List String)) (shell : Bool) (log_file : Option String)
    (child : List String → ChildOutcome) :
    ScriptExecutor × ExecTrace × ExecResult :=
  match log_file with
  | some lf =>
      match makedirs (posixDirname lf) with
      | Except.error e =>
          (self,
           { cmd := self.buildCmd script_path args, dirsCreated := [],
             spawnAttempted := false, console := [], logWrites := [] },
           { returncode := -1, error := some (errMsg script_type e) })
      | Except.ok _ =>
          ScriptExecutor.runChild self (self.buildCmd script_path args) script_type
            log_file [posixDirname lf] child
  | none =>
      ScriptExecutor.runChild self (self.buildCmd script_path args) script_type
        log_file [] child

/-- The fault raised by the child, when one is raised at all. -/
def childFault : ChildOutcome → Option String
  | ChildOutcome.spawnFault d => some d
  | ChildOutcome.run _ _ => none
  | ChildOutcome.drainFault _ d => some d

/-- Description of the first fault raised inside the `try` block of one
`execute` call, when any is: the `os.makedirs` fault when a log file
with an empty parent is configured, else the fault of the spawned
child. -/
def faultOf (self : ScriptExecutor) (script_path : String)
    (args : Option (List String)) (log_file : Option String)
    (child : List String → ChildOutcome) : Option String :=
  match log_file with
  | some lf =>
      match makedirs (posixDirname lf) with
      | Except.error e => some e
      | Except.ok _ => childFault (child (self.buildCmd script_path args))
  | none => childFault (child (self.buildCmd script_path args))

/-- Helper: no string ends with both `".sh"` and `".py"`. -/
theorem pyEndswith_sh_not_py (s : String) (h : pyEndswith s ".sh" = true) :
    pyEndswith s ".py" = false := by
  by_contra hpy
  rw [Bool.not_eq_false] at hpy
  rw [pyEndswith, List.isSuffixOf_iff_suffix] at h hpy
  rcases List.suffix_or_suffix_of_suffix h hpy with hs | hs
  · exact absurd (hs.eq_of_length (by decide)) (by decide)
  · exact absurd (hs.eq_of_length (by decide)) (by decide)

/-- Helper: the dirname of a path with no separator is empty. -/
theorem dirname_of_slashless (p : String) (h : ∀ c ∈ p.toList, c ≠ '/') :
    posixDirname p = "" := by
  have hdrop : p.toList.reverse.dropWhile (fun c => c ≠ '/') = [] := by
    rw [List.dropWhile_eq_nil_iff]
    intro x hx
    simp only [ne_eq, decide_not, Bool.not_eq_true', decide_eq_false_iff_not]
    exact h x (List.mem_reverse.mp hx)
  unfold posixDirname headPart
  rw [hdrop]
  simp

/-- Helper: when every raw line is non-empty and a log file is
configured, the drain loop prints each line stripped and appends each
raw line, in order. -/
theorem drain_eq_of_ne_nil (lines : List String) (p : String)
    (h : ∀ l ∈ lines, l ≠ "") :
    drain lines (some p) = (lines.map pyStrip, lines) := by
  induction lines with
  | nil => rfl
  | cons l ls ih =>
      have hl : l ≠ "" := h l (List.mem_cons_self l ls)
      have ih2 := ih (fun x hx => h x (List.mem_cons_of_mem l hx))
      simp [drain, hl, ih2]

/-- Helper: `execute` returns the executor it was given, in every
branch. -/
theorem execute_fst_eq (self : ScriptExecutor) (sp st : String)
    (args : Option (List String)) (sh : Bool) (lf : Option String)
    (child : List String → ChildOutcome) :
    (ScriptExecutor.execute self sp st args sh lf child).1 = self := by
  rcases lf with _ | p
  · simp only [ScriptExecutor.execute, ScriptExecutor.runChild]
    cases child (self.buildCmd sp args) <;> rfl
  · simp only [ScriptExecutor.execute]
    cases makedirs (posixDirname p) with
    | error e => rfl
    | ok u =>
        simp only [ScriptExecutor.runChild]
        cases child (self.buildCmd sp args) <;> rfl

/-- Claim C1: whenever a fault is raised inside the body of
`execute` — before the spawn (`os.makedirs`), at the spawn, or during
the drain — the fault is caught at the outer boundary and converted
into the result `{returncode := -1, error := "Error occurred while
executing <script_type> script: <description>"}`; the fault never
propagates to the caller. -/
theorem execute_normalizes_faults (self : ScriptExecutor) (sp st : String)
    (args : Option (List String)) (sh : Bool) (lf : Option String)
    (child : List String → ChildOutcome) (d : String)
    (h : faultOf self sp args lf child = some d) :
    (ScriptExecutor.execute self sp st args sh lf child).2.2 =
      { returncode := -1, error := some (errMsg st d) } := by
  rcases lf with _ | p
  · simp only [faultOf] at h
    simp only [ScriptExecutor.execute, ScriptExecutor.runChild]
    cases hc : child (self.buildCmd sp args) with
    | spawnFault e =>
        rw [hc] at h
        simp only [childFault, Option.some.injEq] at h
        simp [hc, h]
    | run lines code =>
        rw [hc] at h
        simp [childFault] at h
    | drainFault lines e =>
        rw [hc] at h
        simp only [childFault, Option.some.injEq] at h
        simp [hc, h]
  · simp only [faultOf] at h
    simp only [ScriptExecutor.execute]
    by_cases hz : posixDirname p = ""
    · simp only [makedirs, hz, if_true, reduceIte, Option.some.injEq] at h
      simp [makedirs, hz, h]
    · simp only [makedirs, hz, reduceIte, ite_false] at h
      simp only [makedirs, hz, reduceIte, ite_false, ScriptExecutor.runChild]
      cases hc : child (self.buildCmd sp args) with
      | spawnFault e =>
          rw [hc] at h
          simp only [childFault, Option.some.injEq] at h
          simp [hc, h]
      | run lines code =>
          rw [hc] at h
          simp [childFault] at h
      | drainFault lines e =>
          rw [hc] at h
          simp only [childFault, Option.some.injEq] at h
          simp [hc, h]

/-- Claim C1 witness: a spawn fault at a concrete input is returned as
the sentinel result. -/
theorem execute_normalizes_faults_witness :
    (ScriptExecutor.execute ⟨true, "docker-env"⟩ "job.py" "health" none false none
        (fun _ => ChildOutcome.spawnFault "No such file or directory")).2.2 =
      { returncode := -1,
        error := some
          "Error occurred while executing health script: No such file or directory" } := by
  have h := execute_normalizes_faults ⟨true, "docker-env"⟩ "job.py" "health" none false
      none (fun _ => ChildOutcome.spawnFault "No such file or directory")
      "No such file or directory" rfl
  rw [h]
  decide

/-- Claim C2: construction succeeds exactly when the context is
containerized (`IN_DOCKER_ENV` is `"1"` or the marker path exists) or
`CONDA_DEFAULT_ENV` is set and non-empty; in the remaining case the
constructor raises a configuration error and no executor is
produced. -/
theorem init_ok_iff (ide : Option String) (dk : Bool) (cde : Option String) :
    (ScriptExecutor.init ide dk cde).isOk = true ↔
      ((ide = some "1" ∨ dk = true) ∨ ∃ e, cde = some e ∧ e ≠ "") := by
  simp only [ScriptExecutor.init]
  by_cases hd : (ide == some "1" || dk) = true
  · simp only [hd, if_true, reduceIte, Except.isOk]
    constructor
    · intro _
      left
      rcases Bool.or_eq_true_iff.mp hd with h1 | h1
      · exact Or.inl (eq_of_beq h1)
      · exact Or.inr h1
    · intro _
      rfl
  · have hd2 : (ide == some "1" || dk) = false := Bool.not_eq_true _ |>.mp hd
    rcases Bool.or_eq_false_iff.mp hd2 with ⟨h1, h2⟩
    have hide : ¬ ide = some "1" := by
      intro he
      subst he
      simp at h1
    simp only [hd2, Bool.false_eq_true, if_false, reduceIte]
    cases cde with
    | none => simp [Except.isOk, Except.toBool, hide, h2]
    | some e =>
        by_cases he : e = ""
        · simp [he, Except.isOk, Except.toBool, hide, h2]
        · simp [he, Except.isOk, Except.toBool, hide, h2]

/-- Claim C3: outside the containerized context the command is the
`conda run -n <env>` prefix followed by `python -u <path>` for a `.py`
path, `bash -x <path>` for a `.sh` path, and the bare path otherwise,
with the arguments appended in order in every case. -/
theorem buildCmd_conda_cases (self : ScriptExecutor) (sp : String)
    (args : Option (List String)) (h : self.in_docker = false) :
    (pyEndswith sp ".py" = true →
        self.buildCmd sp args =
          ["conda", "run", "-n", self.conda_env, "python", "-u", sp] ++ args.getD []) ∧
    (pyEndswith sp ".sh" = true →
        self.buildCmd sp args =
          ["conda", "run", "-n", self.conda_env, "bash", "-x", sp] ++ args.getD []) ∧
    (pyEndswith sp ".py" = false → pyEndswith sp ".sh" = false →
        self.buildCmd sp args =
          ["conda", "run", "-n", self.conda_env, sp] ++ args.getD []) := by
  refine ⟨fun h1 => ?_, fun h2 => ?_, fun h1 h2 => ?_⟩
  · simp [ScriptExecutor.buildCmd, h, h1]
  · have h1 := pyEndswith_sh_not_py sp h2
    simp [ScriptExecutor.buildCmd, h, h1, h2]
  · simp [ScriptExecutor.buildCmd, h, h1, h2]

/-- Claim C3 witness: a concrete `.sh` request outside the container. -/
theorem buildCmd_conda_cases_witness :
    ScriptExecutor.buildCmd ⟨false, "env1"⟩ "job.sh" (some ["--x"]) =
      ["conda", "run", "-n", "env1", "bash", "-x", "job.sh", "--x"] := by
  have h := (buildCmd_conda_cases ⟨false, "env1"⟩ "job.sh" (some ["--x"]) rfl).2.1
    (by decide)
  simpa using h

/-- Claim C4: inside the containerized context the command is
`python <path>` for a `.py` path and the bare path otherwise, with the
arguments appended in order; there is no environment wrapper and no
unbuffered flag. -/
theorem buildCmd_docker_cases (self : ScriptExecutor) (sp : String)
    (args : Option (List String)) (h : self.in_docker = true) :
    (pyEndswith sp ".py" = true →
        self.buildCmd sp args = ["python", sp] ++ args.getD []) ∧
    (pyEndswith sp ".py" = false →
        self.buildCmd sp args = [sp] ++ args.getD []) := by
  constructor <;> intro h1 <;> simp [ScriptExecutor.buildCmd, h, h1]

/-- Claim C4 witness: a concrete `.py` request inside the container. -/
theorem buildCmd_docker_cases_witness :
    ScriptExecutor.buildCmd ⟨true, "docker-env"⟩ "job.py" (some ["--x", "1"]) =
      ["python", "job.py", "--x", "1"] := by
  have h := (buildCmd_docker_cases ⟨true, "docker-env"⟩ "job.py" (some ["--x", "1"])
    rfl).1 (by decide)
  simpa using h

/-- Claim C5: when the child terminates with exit code `c` (no fault
anywhere in the call), a nonzero `c` yields the result
`{returncode := c, error := "Execution failed, return code: c"}` and a
zero `c` yields `{returncode := 0, error := none}`. -/
theorem execute_exit_code_result (self : ScriptExecutor) (sp st : String)
    (args : Option (List String)) (sh : Bool) (lf : Option String)
    (child : List String → ChildOutcome) (lines : List String) (code : Int)
    (hrun : child (self.buildCmd sp args) = ChildOutcome.run lines code)
    (hok : faultOf self sp args lf child = none) :
    (¬ code = 0 →
        (ScriptExecutor.execute self sp st args sh lf child).2.2 =
          { returncode := code, error := some (failMsg code) }) ∧
    (code = 0 →
        (ScriptExecutor.execute self sp st args sh lf child).2.2 =
          { returncode := 0, error := none }) := by
  rcases lf with _ | p
  · simp only [ScriptExecutor.execute, ScriptExecutor.runChild, hrun]
    constructor
    · intro hz
      simp [hz]
    · intro hz
      simp [hz]
  · simp only [faultOf] at hok
    cases hm : makedirs (posixDirname p) with
    | error e =>
        rw [hm] at hok
        simp at hok
    | ok u =>
        simp only [ScriptExecutor.execute, ScriptExecutor.runChild, hm, hrun]
        constructor
        · intro hz
          simp [hz]
        · intro hz
          simp [hz]

/-- Claim C5 witness: a child exiting 7 at a concrete input. -/
theorem execute_exit_code_result_witness :
    (ScriptExecutor.execute ⟨true, "docker-env"⟩ "job.py" "test" none false none
        (fun _ => ChildOutcome.run ["a\n"] 7)).2.2 =
      { returncode := 7, error := some "Execution failed, return code: 7" } := by
  have h := (execute_exit_code_result ⟨true, "docker-env"⟩ "job.py" "test" none false
      none (fun _ => ChildOutcome.run ["a\n"] 7) ["a\n"] 7 rfl rfl).1 (by decide)
  rw [h]
  decide

/-- Claim C6 counterexample: the console copy of a child line is not
the line trimmed of trailing whitespace only — the source calls
`strip()`, which also removes leading whitespace.  For the raw line
`"  hi\n"` the console shows `"hi"`, not `"  hi"`. -/
theorem execute_console_trim_counterexample :
    (ScriptExecutor.execute ⟨true, "docker-env"⟩ "job.py" "demo" none false
        (some "/tmp/x.log") (fun _ => ChildOutcome.run ["  hi\n"] 0)).2.1.console =
      ["hi"] ∧
    pyRstrip "  hi\n" = "  hi" ∧
    ¬ (ScriptExecutor.execute ⟨true, "docker-env"⟩ "job.py" "demo" none false
        (some "/tmp/x.log") (fun _ => ChildOutcome.run ["  hi\n"] 0)).2.1.console =
      [pyRstrip "  hi\n"] := by
  refine ⟨by decide, by decide, by decide⟩

/-- Claim C6 as amended: each child line is written to the console
trimmed of leading and trailing whitespace (Python `strip()`), and the
raw line — terminator included — is appended to the log file by an
open/write/close of its own, so both sinks receive every line in
order, with log-file byte content preserved. -/
theorem execute_streams_lines (self : ScriptExecutor) (sp st : String)
    (args : Option (List String)) (sh : Bool) (p : String)
    (child : List String → ChildOutcome) (lines : List String) (code : Int)
    (hdir : ¬ posixDirname p = "")
    (hrun : child (self.buildCmd sp args) = ChildOutcome.run lines code)
    (hne : ∀ l ∈ lines, l ≠ "") :
    (ScriptExecutor.execute self sp st args sh (some p) child).2.1.console =
      lines.map pyStrip ∧
    (ScriptExecutor.execute self sp st args sh (some p) child).2.1.logWrites =
      lines := by
  simp only [ScriptExecutor.execute, makedirs, hdir, reduceIte, ite_false,
    ScriptExecutor.runChild, hrun, drain_eq_of_ne_nil lines p hne]
  exact ⟨by trivial, by trivial⟩

/-- Claim C6 amended witness: a concrete two-line run. -/
theorem execute_streams_lines_witness :
    (ScriptExecutor.execute ⟨true, "docker-env"⟩ "job.py" "demo" none false
        (some "/tmp/x.log")
        (fun _ => ChildOutcome.run ["  hi\n", "bye \n"] 0)).2.1.console =
      ["hi", "bye"] ∧
    (ScriptExecutor.execute ⟨true, "docker-env"⟩ "job.py" "demo" none false
        (some "/tmp/x.log")
        (fun _ => ChildOutcome.run ["  hi\n", "bye \n"] 0)).2.1.logWrites =
      ["  hi\n", "bye \n"] := by
  have h := execute_streams_lines ⟨true, "docker-env"⟩ "job.py" "demo" none false
      "/tmp/x.log" (fun _ => ChildOutcome.run ["  hi\n", "bye \n"] 0)
      ["  hi\n", "bye \n"] 0 (by decide) rfl (by decide)
  rw [h.1, h.2]
  refine ⟨by decide, rfl⟩

/-- Claim C7 counterexample: for a child that exits 0 with no output
and a configured log file, the result is `{0, none}` and the parent
directory is created, but the log file itself is never opened (the
source opens it only inside `if output:`), so it is not created — the
claim says it is created possibly empty. -/
theorem execute_empty_output_counterexample :
    (ScriptExecutor.execute ⟨true, "docker-env"⟩ "job.py" "demo" none false
        (some "/tmp/run.log") (fun _ => ChildOutcome.run [] 0)).2.2 =
      { returncode := 0, error := none } ∧
    (ScriptExecutor.execute ⟨true, "docker-env"⟩ "job.py" "demo" none false
        (some "/tmp/run.log") (fun _ => ChildOutcome.run [] 0)).2.1.dirsCreated =
      ["/tmp"] ∧
    (ScriptExecutor.execute ⟨true, "docker-env"⟩ "job.py" "demo" none false
        (some "/tmp/run.log") (fun _ => ChildOutcome.run [] 0)).2.1.logWrites =
      [] := by
  refine ⟨by decide, by decide, by decide⟩

/-- Claim C7 as amended: for a child exiting 0 with no output the
result is `{returncode := 0, error := none}`; when a log file is
configured its parent directory is created (recursively) before the
spawn, but the log file itself is opened — hence created — only upon
the first output line, so it does not come into existence for an
output-less child. -/
theorem execute_empty_output_result (self : ScriptExecutor) (sp st : String)
    (args : Option (List String)) (sh : Bool) (p : String)
    (child : List String → ChildOutcome)
    (hdir : ¬ posixDirname p = "")
    (hrun : child (self.buildCmd sp args) = ChildOutcome.run [] 0) :
    (ScriptExecutor.execute self sp st args sh (some p) child).2.2 =
      { returncode := 0, error := none } ∧
    (ScriptExecutor.execute self sp st args sh (some p) child).2.1.dirsCreated =
      [posixDirname p] ∧
    (ScriptExecutor.execute self sp st args sh (some p) child).2.1.spawnAttempted =
      true ∧
    (ScriptExecutor.execute self sp st args sh (some p) child).2.1.logWrites =
      [] := by
  simp only [ScriptExecutor.execute, makedirs, hdir, reduceIte, ite_false,
    ScriptExecutor.runChild, hrun, drain]
  refine ⟨by simp, by trivial, by trivial, by trivial⟩

/-- Claim C7 amended witness: a concrete output-less successful run. -/
theorem execute_empty_output_result_witness :
    (ScriptExecutor.execute ⟨true, "docker-env"⟩ "job.py" "demo" none false
        (some "/var/log/app/run.log") (fun _ => ChildOutcome.run [] 0)).2.2 =
      { returncode := 0, error := none } ∧
    (ScriptExecutor.execute ⟨true, "docker-env"⟩ "job.py" "demo" none false
        (some "/var/log/app/run.log")
        (fun _ => ChildOutcome.run [] 0)).2.1.dirsCreated = ["/var/log/app"] ∧
    (ScriptExecutor.execute ⟨true, "docker-env"⟩ "job.py" "demo" none false
        (some "/var/log/app/run.log")
        (fun _ => ChildOutcome.run [] 0)).2.1.logWrites = [] := by
  have h := execute_empty_output_result ⟨true, "docker-env"⟩ "job.py" "demo" none
      false "/var/log/app/run.log" (fun _ => ChildOutcome.run [] 0) (by decide) rfl
  exact ⟨h.1, by rw [h.2.1]; decide, h.2.2.2⟩

/-- Claim C8: across every return path of `execute`, the result carries
an error message exactly when its return code is nonzero — the internal
sentinel `-1` included. -/
theorem execute_error_iff_nonzero (self : ScriptExecutor) (sp st : String)
    (args : Option (List String)) (sh : Bool) (lf : Option String)
    (child : List String → ChildOutcome) :
    ((ScriptExecutor.execute self sp st args sh lf child).2.2.error.isSome = true ↔
      ¬ (ScriptExecutor.execute self sp st args sh lf child).2.2.returncode = 0) := by
  rcases lf with _ | p
  · simp only [ScriptExecutor.execute, ScriptExecutor.runChild]
    cases child (self.buildCmd sp args) with
    | spawnFault d => simp
    | run lines code =>
        by_cases hz : code = 0
        · simp [hz]
        · simp [hz]
    | drainFault lines d => simp
  · simp only [ScriptExecutor.execute]
    cases makedirs (posixDirname p) with
    | error e => simp
    | ok u =>
        simp only [ScriptExecutor.runChild]
        cases child (self.buildCmd sp args) with
        | spawnFault d => simp
        | run lines code =>
            by_cases hz : code = 0
            · simp [hz]
            · simp [hz]
        | drainFault lines d => simp

/-- Claim C9: when the log file path is a bare filename — non-empty
(an empty path is Python-falsy and skips the log-file branch
altogether) and with no directory component — the
`os.makedirs(os.path.dirname(log_file))` step runs on the empty string
and raises before `Popen` is ever reached, so `execute` returns the
internal-failure result `{returncode := -1, error := present}` without
spawning the child. -/
theorem execute_bare_logfile_no_spawn (self : ScriptExecutor) (sp st : String)
    (args : Option (List String)) (sh : Bool)
    (child : List String → ChildOutcome) (fname : String)
    (_hne : ¬ fname = "") (h : ∀ c ∈ fname.toList, c ≠ '/') :
    (ScriptExecutor.execute self sp st args sh (some fname) child).2.2.returncode =
      -1 ∧
    (ScriptExecutor.execute self sp st args sh (some fname) child).2.2.error =
      some (errMsg st "[Errno 2] No such file or directory: \x27\x27") ∧
    (ScriptExecutor.execute self sp st args sh (some fname) child).2.1.spawnAttempted =
      false := by
  have hd := dirname_of_slashless fname h
  simp only [ScriptExecutor.execute, makedirs, hd, reduceIte, ite_true]
  exact ⟨by trivial, by trivial, by trivial⟩

/-- Claim C9 witness: the bare filename `"run.log"`. -/
theorem execute_bare_logfile_no_spawn_witness :
    (ScriptExecutor.execute ⟨true, "docker-env"⟩ "job.py" "demo" none false
        (some "run.log") (fun _ => ChildOutcome.run ["a\n"] 0)).2.2.returncode =
      -1 ∧
    (ScriptExecutor.execute ⟨true, "docker-env"⟩ "job.py" "demo" none false
        (some "run.log")
        (fun _ => ChildOutcome.run ["a\n"] 0)).2.1.spawnAttempted = false := by
  have h := execute_bare_logfile_no_spawn ⟨true, "docker-env"⟩ "job.py" "demo" none
      false (fun _ => ChildOutcome.run ["a\n"] 0) "run.log" (by decide) (by decide)
  exact ⟨h.1, h.2.2⟩

/-- Claim C10: `execute` leaves the executor state fixed at
construction unchanged (it assigns to no field of `self`, and
`cmd.extend(args)` mutates only the freshly built local command list),
so a second call with the same request constructs the identical command
and returns the identical result. -/
theorem execute_frame (self : ScriptExecutor) (sp st : String)
    (args : Option (List String)) (sh : Bool) (lf : Option String)
    (child : List String → ChildOutcome) :
    (ScriptExecutor.execute self sp st args sh lf child).1 = self ∧
    (ScriptExecutor.execute (ScriptExecutor.execute self sp st args sh lf child).1
        sp st args sh lf child).2.1.cmd =
      (ScriptExecutor.execute self sp st args sh lf child).2.1.cmd ∧
    (ScriptExecutor.execute (ScriptExecutor.execute self sp st args sh lf child).1
        sp st args sh lf child).2.2 =
      (ScriptExecutor.execute self sp st args sh lf child).2.2 := by
  refine ⟨execute_fst_eq self sp st args sh lf child, ?_, ?_⟩ <;>
    rw [execute_fst_eq self sp st args sh lf child]

end ScriptExec
